import Mathlib

/-
Shallow embedding of the Railway operations microservice (src/main.py).

Modelling conventions:
- JSON values are the inductive `Json` below; a decoded 2xx response body is
  a JSON object, modelled as an association list `List (String × Json)`
  (Python dicts have unique keys; lookup takes the first match).
- The upstream endpoint is an oracle `Oracle : GqlCall → TransportResult`
  mapping each outbound GraphQL call to either a transport fault
  (non-2xx status or a network-level requests.RequestException) or a 2xx
  decoded body.
- GraphQL document texts are abstracted to distinct string labels, one per
  document in the source; the handlers treat documents as opaque strings,
  so only their identity matters.
- Python exception messages are modelled by deterministic renderings
  (`Json.render`, `HTTPError.message`, `PyExc.toMessage`); compound values
  inside messages are abstracted, since no property depends on the text of
  a message, only on its presence and count.
- Each handler returns its outcome together with the ordered list of
  upstream calls it performed (its trace), so that "mutation X was never
  attempted" is the statement that X is absent from the trace.
-/

set_option autoImplicit false

namespace Railway

/-- A JSON value, as produced by decoding an upstream response body and as
sent in outbound GraphQL variable payloads. -/
inductive Json where
  | null : Json
  | bool : Bool → Json
  | num : Int → Json
  | str : String → Json
  | arr : List Json → Json
  | obj : List (String × Json) → Json
deriving Repr

/-- First-match lookup in a JSON object field list (Python dict subscript /
`.get`; dict keys are unique so first-match agrees with dict semantics). -/
def getField : List (String × Json) → String → Option Json
  | [], _ => none
  | (k, v) :: rest, key => if k = key then some v else getField rest key

/-- Subscripting a JSON value with a string key: defined on objects, `none`
otherwise (a Python `KeyError`/`TypeError`, which every call site of this
model catches). -/
def Json.lookup : Json → String → Option Json
  | .obj fs, key => getField fs key
  | _, _ => none

/-- Python truthiness of a decoded JSON value. -/
def Json.truthy : Json → Bool
  | .null => false
  | .bool b => b
  | .num n => n != 0
  | .str s => s != ""
  | .arr xs => !xs.isEmpty
  | .obj fs => !fs.isEmpty

/-- Rendering of a JSON value inside a Python exception message.  Scalars
render as Python does; compound values are abstracted to a fixed token
because no verified property inspects the text of a message. -/
def Json.render : Json → String
  | .null => "None"
  | .bool true => "True"
  | .bool false => "False"
  | .num n => toString n
  | .str s => s
  | .arr _ => "[list]"
  | .obj _ => "[dict]"

/-- A FastAPI `HTTPException`: status code and detail payload. -/
structure HTTPError where
  status : Nat
  detail : Json
deriving Repr

/-- Starlette renders `str(HTTPException(s, d))` as `"s: d"`. -/
def HTTPError.message (e : HTTPError) : String :=
  toString e.status ++ ": " ++ e.detail.render

/-- A Python exception escaping a subscript/attribute access inside a
handler: either a re-raised `HTTPException` or a `KeyError`-class failure
(KeyError / TypeError / AttributeError, which the handlers never
distinguish: each is caught by the same broad `except Exception`). -/
inductive PyExc where
  | http : HTTPError → PyExc
  | key : String → PyExc
deriving Repr

/-- The `str(e)` of a modelled Python exception. -/
def PyExc.toMessage : PyExc → String
  | .http e => e.message
  | .key k => "KeyError: " ++ k

/-- One outbound GraphQL call: document text and the variables object. Every
call site of `execute_query` in the source passes a non-empty variables
dict, so the payload always carries the `variables` member. -/
structure GqlCall where
  query : String
  vars : Json
deriving Repr

/-- The transport outcome of one outbound call, as seen by
`RailwayClient.execute_query` after `requests.post` returns. -/
inductive TransportResult where
  /-- Non-2xx status (raise_for_status) or a network-level fault:
  `requests.exceptions.RequestException` with the given message. -/
  | fault : String → TransportResult
  /-- 2xx status with this decoded JSON object body. -/
  | ok : List (String × Json) → TransportResult

/-- The upstream endpoint, as a deterministic mapping from outbound calls to
transport outcomes (each handler run observes a fixed upstream behavior). -/
def Oracle : Type := GqlCall → TransportResult

/-- `RailwayClient.execute_query`: on a transport fault raise a 500
`HTTPException`; on a 2xx body raise a 400 `HTTPException` carrying the raw
value of the `errors` member whenever that key is present; otherwise return
the `data` member, defaulting to the empty object. -/
def execute_query (oracle : Oracle) (call : GqlCall) : Except HTTPError Json :=
  match oracle call with
  | .fault msg => .error ⟨500, .str ("Railway API error: " ++ msg)⟩
  | .ok body =>
    match getField body "errors" with
    | some errs => .error ⟨400, errs⟩
    | none => .ok ((getField body "data").getD (.obj []))

/-- Python truthiness of an `Optional[str]` field: `None` and `""` are
falsy, every non-empty string is truthy. -/
def optTruthy : Option String → Bool
  | none => false
  | some s => s != ""

/-- An `Optional[str]` serialized into a JSON payload slot. -/
def optStrJson : Option String → Json
  | none => .null
  | some s => .str s

/-! ### Request and response models (the pydantic models of the source) -/

structure ServiceCreateRequest where
  project_id : String
  repo : String
  service_name : Option String
  root_directory : Option String
deriving Repr

structure VariableSetRequest where
  project_id : String
  service_id : String
  environment_id : Option String
  /-- The `variables` dict in insertion order; keys are unique. -/
  vars : List (String × String)
deriving Repr

structure DeploymentTriggerRequest where
  project_id : String
  service_id : String
  environment_id : Option String
deriving Repr

structure ServiceResponse where
  id : Json
  name : Json
  created_at : Json
  status : String
deriving Repr

structure VariableResponse where
  success : Bool
  variables_set : List String
  errors : List String
deriving Repr

structure TriggerResponse where
  success : Bool
  deployment_id : Json
  restarted : Json
deriving Repr

/-! ### GraphQL documents (abstracted to one distinct label each) -/

def serviceCreateDoc : String := "mutation serviceCreate(input: ServiceCreateInput)"

def envQueryDoc : String := "query project(id) environments edges node id name"

def variableUpsertDoc : String := "mutation variableUpsert(input: VariableUpsertInput)"

def deploymentsQueryDoc : String := "query deployments(first, input: DeploymentListInput)"

def deploymentRestartDoc : String := "mutation deploymentRestart(id: deploymentId)"

/-! ### Service creation (`create_service`) -/

/-- The `service_input` dict built by `create_service`: `projectId` and
`source.repo` always; `name` / `rootDirectory` appended only when the
corresponding optional field is truthy. -/
def serviceInput (req : ServiceCreateRequest) : List (String × Json) :=
  [("projectId", .str req.project_id), ("source", .obj [("repo", .str req.repo)])]
    ++ (if optTruthy req.service_name
        then [("name", Json.str (req.service_name.getD ""))] else [])
    ++ (if optTruthy req.root_directory
        then [("rootDirectory", Json.str (req.root_directory.getD ""))] else [])

/-- The single outbound call of `create_service`. -/
def createCall (req : ServiceCreateRequest) : GqlCall :=
  ⟨serviceCreateDoc, .obj [("input", .obj (serviceInput req))]⟩

/-- Handler `create_service`: one `serviceCreate` mutation; any exception
(adapter failure or missing response member) is caught by the broad
`except Exception` and re-raised as a 500 `ServiceCreationError`. -/
def create_service (oracle : Oracle) (req : ServiceCreateRequest) :
    Except HTTPError ServiceResponse × List GqlCall :=
  let c := createCall req
  match execute_query oracle c with
  | .error e =>
    (.error ⟨500, .str ("Service creation failed: " ++ e.message)⟩, [c])
  | .ok data =>
    match data.lookup "serviceCreate" with
    | none =>
      (.error ⟨500, .str ("Service creation failed: " ++
        PyExc.toMessage (.key "serviceCreate"))⟩, [c])
    | some sd =>
      match sd.lookup "id", sd.lookup "createdAt" with
      | some i, some ca =>
        (.ok ⟨i, (sd.lookup "name").getD (.str "unnamed"), ca, "created"⟩, [c])
      | _, _ =>
        (.error ⟨500, .str ("Service creation failed: " ++
          PyExc.toMessage (.key "id-createdAt"))⟩, [c])

/-! ### Variable assignment (`set_variables`) -/

/-- The environment-resolution query call. -/
def envCall (project_id : String) : GqlCall :=
  ⟨envQueryDoc, .obj [("id", .str project_id)]⟩

/-- Python `str.lower()`, modelled character-wise (ASCII case folding,
which covers every comparison the source performs). -/
def pyLower (s : String) : String :=
  String.mk (s.data.map Char.toLower)

/-- The loop `for env in environments: if env["node"]["name"].lower() ==
"production": environment_id = env["node"]["id"]; break`.  Returns the id of
the first production-named edge, `none` when no edge matches, or the
exception raised by a malformed edge encountered before any match. -/
def findProduction : List Json → Except PyExc (Option Json)
  | [] => .ok none
  | env :: rest =>
    match env.lookup "node" with
    | none => .error (.key "node")
    | some node =>
      match node.lookup "name" with
      | none => .error (.key "name")
      | some (.str s) =>
        if pyLower s = "production" then
          match node.lookup "id" with
          | none => .error (.key "id")
          | some i => .ok (some i)
        else findProduction rest
      | some _ => .error (.key "name-lower")

/-- `environments[0]["node"]["id"]`, the fallback when no production name
matched (only evaluated on a non-empty list). -/
def firstEnvId : List Json → Except PyExc Json
  | [] => .error (.key "index-0")
  | env :: _ =>
    match env.lookup "node" with
    | none => .error (.key "node")
    | some node =>
      match node.lookup "id" with
      | none => .error (.key "id")
      | some i => .ok i

/-- Environment selection over the decoded edges list.  `initial` is the
value `environment_id` holds when the scan starts — the request's own
(falsy) value, `""` or `None` — and is what remains when no assignment
fires: scan for a production name, then `if not environment_id and
environments:` fall back to the first edge (Python truthiness on the
candidate id); with an empty list both assignments are skipped and the
initial value survives into the upsert payloads. -/
def resolveEdges (initial : Json) (edges : List Json) : Except PyExc Json :=
  match findProduction edges with
  | .error ex => .error ex
  | .ok found =>
    let envId := found.getD initial
    if !envId.truthy && !edges.isEmpty then firstEnvId edges
    else .ok envId

/-- Environment selection from the decoded `data` of the environments
query: subscript `project.environments.edges`, then select among the
edges.  A non-list `edges` follows Python iteration: an empty dict or
empty string iterates nothing and (being falsy) also skips the fallback,
leaving the initial value; a non-empty dict or string yields non-dict
items whose subscription raises; anything else fails to iterate at all. -/
def resolveFromData (initial : Json) (data : Json) : Except PyExc Json :=
  match ((data.lookup "project").bind (fun p => p.lookup "environments")).bind
      (fun e => e.lookup "edges") with
  | some (.arr edges) => resolveEdges initial edges
  | some (.obj []) => .ok initial
  | some (.obj (_ :: _)) => .error (.key "node")
  | some (.str s) => if s = "" then .ok initial else .error (.key "node")
  | _ => .error (.key "project-environments-edges")

/-- The environments query and subsequent selection, carrying `initial` —
the request's own falsy `environment_id` value — through to wherever no
assignment overwrites it; a failure (transport, GraphQL, or malformed
shape) produces the single early-return error message. -/
def resolveEnvQuery (oracle : Oracle) (project_id : String) (initial : Json) :
    Except String Json × List GqlCall :=
  let c := envCall project_id
  match execute_query oracle c with
  | .error e => (.error ("Failed to get environment ID: " ++ e.message), [c])
  | .ok data =>
    match resolveFromData initial data with
    | .error ex => (.error ("Failed to get environment ID: " ++ ex.toMessage), [c])
    | .ok envId => (.ok envId, [c])

/-- Environment-id resolution step of `set_variables`: skipped when the
request carries a truthy environment id; otherwise the environments query
runs with the request's own value (`""` serialized as the empty string,
absence as null) as the residual left in place when nothing is selected. -/
def resolveEnv (oracle : Oracle) (req : VariableSetRequest) :
    Except String Json × List GqlCall :=
  if optTruthy req.environment_id then
    (.ok (.str (req.environment_id.getD "")), [])
  else
    resolveEnvQuery oracle req.project_id (optStrJson req.environment_id)

/-- One `variableUpsert` call of the per-variable loop. -/
def upsertCall (project_id service_id : String) (envId : Json)
    (kv : String × String) : GqlCall :=
  ⟨variableUpsertDoc, .obj [("input", .obj
    [("projectId", .str project_id), ("environmentId", envId),
     ("serviceId", .str service_id), ("name", .str kv.1),
     ("value", .str kv.2)])]⟩

/-- The per-variable loop: each pair issues its upsert; a transport or
GraphQL failure, or a result whose `variableUpsert` member is not literally
`true`, appends one error entry; a literal `true` appends the name to the
success list; the loop never aborts early.  Returns
(successes, errors, calls), each in processing order. -/
def setLoop (oracle : Oracle) (project_id service_id : String) (envId : Json) :
    List (String × String) → List String × List String × List GqlCall
  | [] => ([], [], [])
  | (k, v) :: rest =>
    let c := upsertCall project_id service_id envId (k, v)
    let r := setLoop oracle project_id service_id envId rest
    match execute_query oracle c with
    | .error e =>
      (r.1, ("Failed to set " ++ k ++ ": " ++ e.message) :: r.2.1, c :: r.2.2)
    | .ok data =>
      match data.lookup "variableUpsert" with
      | some (.bool true) => (k :: r.1, r.2.1, c :: r.2.2)
      | _ =>
        (r.1, ("Failed to set " ++ k ++ ": Unexpected response") :: r.2.1,
         c :: r.2.2)

/-- Handler `set_variables`: resolve the environment id (early return with
`success=False` and one error on resolution failure), then run the upsert
loop and report `success = (errors is empty)`, the succeeded names, and the
accumulated error entries. -/
def set_variables (oracle : Oracle) (req : VariableSetRequest) :
    VariableResponse × List GqlCall :=
  match resolveEnv oracle req with
  | (.error msg, tr) => (⟨false, [], [msg]⟩, tr)
  | (.ok envId, tr) =>
    let r := setLoop oracle req.project_id req.service_id envId req.vars
    (⟨r.2.1.isEmpty, r.1, r.2.1⟩, tr ++ r.2.2)

/-! ### Deployment trigger (`trigger_deployment`) -/

/-- The deployments list call: `first = 1` plus the ids, with a null
`environmentId` when the request omitted it. -/
def triggerListCall (req : DeploymentTriggerRequest) : GqlCall :=
  ⟨deploymentsQueryDoc, .obj [("first", .num 1), ("input", .obj
    [("projectId", .str req.project_id), ("serviceId", .str req.service_id),
     ("environmentId", optStrJson req.environment_id)])]⟩

/-- The restart mutation call for a resolved deployment id. -/
def restartCall (depId : Json) : GqlCall :=
  ⟨deploymentRestartDoc, .obj [("deploymentId", depId)]⟩

/-- The `HTTPException(404)` raised inside the `try` block of
`trigger_deployment` when the deployments list is empty. -/
def noDeploymentsExc : HTTPError :=
  ⟨404, .str "No deployments found for this service"⟩

/-- Wrapping applied by the handler boundary of `trigger_deployment`: the
broad `except Exception` catches every exception raised inside the `try`
block, including the 404 `HTTPException` itself, and re-raises it as a 500
whose detail embeds `str(e)`. -/
def triggerWrap (e : PyExc) : HTTPError :=
  ⟨500, .str ("Deployment trigger failed: " ++ e.toMessage)⟩

/-- Handler `trigger_deployment`: list the deployments, raise a 404 on an
empty list, restart the first deployment otherwise — all inside one `try`
whose `except Exception` converts every exception to a 500. -/
def trigger_deployment (oracle : Oracle) (req : DeploymentTriggerRequest) :
    Except HTTPError TriggerResponse × List GqlCall :=
  let c1 := triggerListCall req
  match execute_query oracle c1 with
  | .error e => (.error (triggerWrap (.http e)), [c1])
  | .ok data =>
    match (data.lookup "deployments").bind (fun d => d.lookup "edges") with
    | some (.arr []) => (.error (triggerWrap (.http noDeploymentsExc)), [c1])
    | some (.arr (d0 :: _)) =>
      match (d0.lookup "node").bind (fun n => n.lookup "id") with
      | none => (.error (triggerWrap (.key "node-id")), [c1])
      | some depId =>
        let c2 := restartCall depId
        match execute_query oracle c2 with
        | .error e => (.error (triggerWrap (.http e)), [c1, c2])
        | .ok data2 =>
          match data2.lookup "deploymentRestart" with
          | none => (.error (triggerWrap (.key "deploymentRestart")), [c1, c2])
          | some ack => (.ok ⟨true, depId, ack⟩, [c1, c2])
    | _ => (.error (triggerWrap (.key "deployments-edges")), [c1])

/-! ### Secret generation (`generate_secret_key`) -/

/-- The lowercase hexadecimal digit of `n % 16`. -/
def hexDigit (n : Nat) : Char :=
  match n % 16 with
  | 0 => Char.ofNat 48 | 1 => Char.ofNat 49 | 2 => Char.ofNat 50
  | 3 => Char.ofNat 51 | 4 => Char.ofNat 52 | 5 => Char.ofNat 53
  | 6 => Char.ofNat 54 | 7 => Char.ofNat 55 | 8 => Char.ofNat 56
  | 9 => Char.ofNat 57 | 10 => Char.ofNat 97 | 11 => Char.ofNat 98
  | 12 => Char.ofNat 99 | 13 => Char.ofNat 100 | 14 => Char.ofNat 101
  | _ => Char.ofNat 102

/-- The character list of `secrets.token_hex`: two lowercase hex digits per
random byte, in byte order. -/
def tokenHexChars : List Nat → List Char
  | [] => []
  | b :: rest => hexDigit (b / 16) :: hexDigit b :: tokenHexChars rest

/-- `secrets.token_hex(nbytes)` applied to a given list of random bytes. -/
def token_hex (bytes : List Nat) : String :=
  String.mk (tokenHexChars bytes)

structure SecretResponse where
  secret_key : String
  length : Nat
deriving Repr

/-- Handler `generate_secret_key`: hex-encode 32 random bytes, report the
string and its length; no upstream call is made (empty trace). -/
def generate_secret_key (bytes : List Nat) : SecretResponse × List GqlCall :=
  let s := token_hex bytes
  (⟨s, s.length⟩, [])

/-- Membership in the lowercase hexadecimal alphabet. -/
def isHexChar (c : Char) : Bool :=
  (48 ≤ c.toNat && c.toNat ≤ 57) || (97 ≤ c.toNat && c.toNat ≤ 102)

/-! ## General lemmas about the embedding -/

theorem execute_query_ok (oracle : Oracle) (call : GqlCall)
    (body : List (String × Json)) (h : oracle call = .ok body) :
    execute_query oracle call =
      match getField body "errors" with
      | some errs => .error ⟨400, errs⟩
      | none => .ok ((getField body "data").getD (.obj [])) := by
  unfold execute_query
  rw [h]

theorem getField_mem {l : List (String × Json)} {k : String} {v : Json}
    (h : getField l k = some v) : (k, v) ∈ l := by
  induction l with
  | nil => simp [getField] at h
  | cons kv rest ih =>
    obtain ⟨k0, v0⟩ := kv
    by_cases hk : k0 = k
    · subst hk
      simp [getField] at h
      subst h
      exact List.mem_cons_self _ _
    · simp only [getField, if_neg hk] at h
      exact List.mem_cons_of_mem _ (ih h)

/-! ## Claim C1 — deployment trigger on an empty deployment list

The source raises `HTTPException(404, "No deployments found for this
service")` when the deployments list is empty, but that raise sits inside
the same `try` block whose `except Exception` re-raises everything as
`HTTPException(500, "Deployment trigger failed: " + str(e))`.  The 404 is
therefore swallowed and the operation fails with a 500-class error whose
message merely embeds the 404 text; only the "restart mutation is never
attempted" half of the claim holds on the code. -/

def oracleC1 : Oracle := fun _ =>
  .ok [("data", .obj [("deployments", .obj [("edges", .arr [])])])]

def reqC1 : DeploymentTriggerRequest := ⟨"proj-1", "svc-1", none⟩

/-- C1: with an upstream returning an empty deployment list, the handler
fails with status 500 (the explicitly raised 404 is caught by the broad
`except Exception` and re-raised as a 500 wrapping its text), and the
`deploymentRestart` mutation is never attempted: the trace holds only the
list query. -/
theorem C1_trigger_empty_list_bug :
    (trigger_deployment oracleC1 reqC1).1 = .error ⟨500,
      .str "Deployment trigger failed: 404: No deployments found for this service"⟩
    ∧ (trigger_deployment oracleC1 reqC1).2 = [triggerListCall reqC1]
    ∧ ∀ c ∈ (trigger_deployment oracleC1 reqC1).2, c.query ≠ deploymentRestartDoc := by
  refine ⟨rfl, rfl, ?_⟩
  intro c hc
  simp only [show (trigger_deployment oracleC1 reqC1).2 = [triggerListCall reqC1] from rfl,
    List.mem_singleton] at hc
  subst hc
  simp only [triggerListCall]
  decide

/-! ## Claim C2 — GraphQL errors take priority, but the check is on key
presence, not non-emptiness

`execute_query` tests `if "errors" in result`: any body that carries an
`errors` key fails with a 400, even when the carried sequence is empty, so
"fails exactly when the body contains a non-empty errors sequence" is wrong
on the empty-sequence boundary. -/

def bodyC2 : List (String × Json) :=
  [("errors", .arr []), ("data", .obj [("ok", .bool true)])]

def oracleC2 : Oracle := fun _ => .ok bodyC2

def callC2 : GqlCall := ⟨serviceCreateDoc, .obj [("input", .obj [])]⟩

/-- C2 counterexample: a 2xx body whose `errors` member is the EMPTY
sequence (alongside a `data` member) still makes the adapter fail with a
400-class error, refuting "fails exactly when the errors sequence is
non-empty". -/
theorem C2_counterexample :
    oracleC2 callC2 = .ok bodyC2
    ∧ getField bodyC2 "errors" = some (.arr [])
    ∧ execute_query oracleC2 callC2 = .error ⟨400, .arr []⟩ :=
  ⟨rfl, rfl, rfl⟩

/-- C2 (amended): on a 2xx transport response the adapter fails with a
400-class error carrying the raw value of the `errors` member exactly when
that key is present in the decoded body — whether or not the carried
sequence is empty, and even when `data` is also present. -/
theorem C2_errors_key_priority (oracle : Oracle) (call : GqlCall)
    (body : List (String × Json)) (h : oracle call = .ok body) :
    ((∃ errs, execute_query oracle call = .error ⟨400, errs⟩) ↔
      (getField body "errors").isSome)
    ∧ (∀ errs, getField body "errors" = some errs →
        execute_query oracle call = .error ⟨400, errs⟩) := by
  have hq := execute_query_ok oracle call body h
  constructor
  · constructor
    · rintro ⟨errs, he⟩
      rw [hq] at he
      cases hg : getField body "errors" with
      | none => rw [hg] at he; exact absurd he (by simp)
      | some e0 => simp [hg]
    · intro hs
      rw [Option.isSome_iff_exists] at hs
      obtain ⟨errs, hg⟩ := hs
      refine ⟨errs, ?_⟩
      rw [hq, hg]
  · intro errs hg
    rw [hq, hg]

def bodyC2w : List (String × Json) :=
  [("errors", .arr [.str "boom"]), ("data", .obj [("ok", .bool true)])]

def oracleC2w : Oracle := fun _ => .ok bodyC2w

/-- C2 witness: the amended theorem applied to a concrete body carrying a
one-element error list next to a `data` member. -/
theorem C2_errors_key_priority_witness :
    ((∃ errs, execute_query oracleC2w callC2 = .error ⟨400, errs⟩) ↔
      (getField bodyC2w "errors").isSome)
    ∧ (∀ errs, getField bodyC2w "errors" = some errs →
        execute_query oracleC2w callC2 = .error ⟨400, errs⟩) :=
  C2_errors_key_priority oracleC2w callC2 bodyC2w rfl

/-! ## Claim C3 — the success path returns the `data` member -/

/-- C3: on a 2xx response that does not trigger the GraphQL-errors failure
(no `errors` key in the decoded body), the adapter returns the body's
`data` member, and the empty object when that member is absent. -/
theorem C3_data_field (oracle : Oracle) (call : GqlCall)
    (body : List (String × Json)) (h : oracle call = .ok body)
    (hne : getField body "errors" = none) :
    execute_query oracle call = .ok ((getField body "data").getD (.obj []))
    ∧ (getField body "data" = none → execute_query oracle call = .ok (.obj [])) := by
  have hq : execute_query oracle call = .ok ((getField body "data").getD (.obj [])) := by
    rw [execute_query_ok oracle call body h, hne]
  exact ⟨hq, fun hd => by rw [hq, hd]; rfl⟩

def bodyC3 : List (String × Json) := [("data", .obj [("service", .null)])]

def oracleC3 : Oracle := fun _ => .ok bodyC3

/-- C3 witness: the theorem applied to a concrete errors-free body. -/
theorem C3_data_field_witness :
    execute_query oracleC3 callC2 = .ok ((getField bodyC3 "data").getD (.obj []))
    ∧ (getField bodyC3 "data" = none → execute_query oracleC3 callC2 = .ok (.obj [])) :=
  C3_data_field oracleC3 callC2 bodyC3 rfl rfl

/-! ## Claim C4 — shape of the serviceCreate input object

The source includes the optional members with `if request.service_name:`
and `if request.root_directory:`, i.e. by TRUTHINESS: a supplied
empty-string optional field is omitted exactly like an absent one, so
"contains `name` exactly when a custom service name is supplied" fails at
the supplied empty string.  The mandatory members, the conditional
inclusion, and the absence of explicit nulls all hold. -/

def reqC4 : ServiceCreateRequest := ⟨"proj-4", "owner/repo", some "", none⟩

def oracleC4 : Oracle := fun _ => .fault "unreachable"

/-- C4 counterexample: a service-creation request whose custom name is
supplied as the empty string produces an input object WITHOUT a `name`
member — the outbound payload of the single call carries only `projectId`
and `source.repo`. -/
theorem C4_counterexample :
    reqC4.service_name = some ""
    ∧ getField (serviceInput reqC4) "name" = none
    ∧ (create_service oracleC4 reqC4).2 = [⟨serviceCreateDoc, .obj [("input", .obj
        [("projectId", .str "proj-4"),
         ("source", .obj [("repo", .str "owner/repo")])])]⟩] :=
  ⟨rfl, rfl, rfl⟩

/-- C4 (amended): every service-creation request issues exactly one call
whose input object contains `projectId` and `source.repo`; it contains
`name` exactly when a truthy (non-empty) custom service name is supplied
and `rootDirectory` exactly when a truthy root directory is supplied — an
empty-string optional field is treated as absent — and an absent optional
field is omitted from the payload entirely, never sent as an explicit
null. -/
theorem C4_payload_fields (oracle : Oracle) (req : ServiceCreateRequest) :
    (create_service oracle req).2 =
      [⟨serviceCreateDoc, .obj [("input", .obj (serviceInput req))]⟩]
    ∧ getField (serviceInput req) "projectId" = some (.str req.project_id)
    ∧ getField (serviceInput req) "source" = some (.obj [("repo", .str req.repo)])
    ∧ getField (serviceInput req) "name" =
        (if optTruthy req.service_name
         then some (.str (req.service_name.getD "")) else none)
    ∧ getField (serviceInput req) "rootDirectory" =
        (if optTruthy req.root_directory
         then some (.str (req.root_directory.getD "")) else none)
    ∧ (∀ k v, getField (serviceInput req) k = some v → v ≠ .null) := by
  refine ⟨?_, ?_, ?_, ?_, ?_, ?_⟩
  · simp only [create_service, createCall]
    repeat' split
    all_goals rfl
  · cases h1 : optTruthy req.service_name <;>
      cases h2 : optTruthy req.root_directory <;>
      simp [serviceInput, getField, h1, h2]
  · cases h1 : optTruthy req.service_name <;>
      cases h2 : optTruthy req.root_directory <;>
      simp [serviceInput, getField, h1, h2]
  · cases h1 : optTruthy req.service_name <;>
      cases h2 : optTruthy req.root_directory <;>
      simp [serviceInput, getField, h1, h2]
  · cases h1 : optTruthy req.service_name <;>
      cases h2 : optTruthy req.root_directory <;>
      simp [serviceInput, getField, h1, h2]
  · intro k v h hv
    subst hv
    have hm := getField_mem h
    cases h1 : optTruthy req.service_name <;>
      cases h2 : optTruthy req.root_directory <;>
      simp [serviceInput, h1, h2] at hm

def reqC4w : ServiceCreateRequest := ⟨"proj-4w", "owner/repo", some "custom", none⟩

/-- C4 witness: the amended theorem applied to a request with a non-empty
custom name and no root directory. -/
theorem C4_payload_fields_witness :
    (create_service oracleC4 reqC4w).2 =
      [⟨serviceCreateDoc, .obj [("input", .obj (serviceInput reqC4w))]⟩]
    ∧ getField (serviceInput reqC4w) "projectId" = some (.str reqC4w.project_id)
    ∧ getField (serviceInput reqC4w) "source" = some (.obj [("repo", .str reqC4w.repo)])
    ∧ getField (serviceInput reqC4w) "name" =
        (if optTruthy reqC4w.service_name
         then some (.str (reqC4w.service_name.getD "")) else none)
    ∧ getField (serviceInput reqC4w) "rootDirectory" =
        (if optTruthy reqC4w.root_directory
         then some (.str (reqC4w.root_directory.getD "")) else none)
    ∧ (∀ k v, getField (serviceInput reqC4w) k = some v → v ≠ .null) :=
  C4_payload_fields oracleC4 reqC4w

/-! ## The per-variable loop, characterized

`upsertOk` / `upsertErrMsg` read off, for one variable, whether its upsert
succeeds under a given oracle and which error entry it contributes
otherwise; `setLoop_eq` characterizes the whole loop by them. -/

/-- Whether the upsert of one variable succeeds: the call returns 2xx with
no GraphQL errors and the returned `variableUpsert` member is literally
`true`. -/
def upsertOk (oracle : Oracle) (project_id service_id : String) (envId : Json)
    (kv : String × String) : Bool :=
  match execute_query oracle (upsertCall project_id service_id envId kv) with
  | .error _ => false
  | .ok data =>
    match data.lookup "variableUpsert" with
    | some (.bool true) => true
    | _ => false

/-- The error entry contributed by a failing variable. -/
def upsertErrMsg (oracle : Oracle) (project_id service_id : String)
    (envId : Json) (kv : String × String) : String :=
  match execute_query oracle (upsertCall project_id service_id envId kv) with
  | .error e => "Failed to set " ++ kv.1 ++ ": " ++ e.message
  | .ok _ => "Failed to set " ++ kv.1 ++ ": Unexpected response"

theorem setLoop_eq (oracle : Oracle) (project_id service_id : String)
    (envId : Json) (vs : List (String × String)) :
    setLoop oracle project_id service_id envId vs =
      ((vs.filter (upsertOk oracle project_id service_id envId)).map Prod.fst,
       (vs.filter fun kv => !upsertOk oracle project_id service_id envId kv).map
         (upsertErrMsg oracle project_id service_id envId),
       vs.map (upsertCall project_id service_id envId)) := by
  induction vs with
  | nil => rfl
  | cons kv rest ih =>
    obtain ⟨k, v⟩ := kv
    cases hq : execute_query oracle (upsertCall project_id service_id envId (k, v)) with
    | error e =>
      simp [setLoop, upsertOk, upsertErrMsg, hq, ih, List.filter]
    | ok data =>
      cases hv : data.lookup "variableUpsert" with
      | none => simp [setLoop, upsertOk, upsertErrMsg, hq, hv, ih, List.filter]
      | some j =>
        cases j with
        | bool b =>
          cases b <;> simp [setLoop, upsertOk, upsertErrMsg, hq, hv, ih, List.filter]
        | null => simp [setLoop, upsertOk, upsertErrMsg, hq, hv, ih, List.filter]
        | num n => simp [setLoop, upsertOk, upsertErrMsg, hq, hv, ih, List.filter]
        | str s => simp [setLoop, upsertOk, upsertErrMsg, hq, hv, ih, List.filter]
        | arr xs => simp [setLoop, upsertOk, upsertErrMsg, hq, hv, ih, List.filter]
        | obj fs => simp [setLoop, upsertOk, upsertErrMsg, hq, hv, ih, List.filter]

/-! ## Claim C5 — environment resolution

The upstream edges are modelled through the well-formed shape the spec
describes (an ordered list of `(id, name)` string pairs); `mkEdge` /
`envBody` build the corresponding decoded response.  The claim's selection
rule fails when the first production-named environment carries an EMPTY id:
`if not environment_id and environments:` then discards it (Python
truthiness) and falls back to the first edge. -/

/-- One `edges` entry of the environments query response. -/
def mkEdge (i name : String) : Json :=
  .obj [("node", .obj [("id", .str i), ("name", .str name)])]

/-- The decoded 2xx body of the environments query for a given ordered
environment list. -/
def envBody (envs : List (String × String)) : List (String × Json) :=
  [("data", .obj [("project", .obj [("environments", .obj
    [("edges", .arr (envs.map fun p => mkEdge p.1 p.2))])])])]

/-- The selection rule of the amended claim C5, stated from its words: the
first case-insensitively production-named environment's id when that id is
non-empty; otherwise the first entry's id; null on an empty list. -/
def amendedEnvSelect (envs : List (String × String)) : Json :=
  match (envs.find? fun p => pyLower p.2 == "production"), envs with
  | some p, e :: _ => if p.1 = "" then .str e.1 else .str p.1
  | none, e :: _ => .str e.1
  | _, [] => .null

theorem findProduction_map (envs : List (String × String)) :
    findProduction (envs.map fun p => mkEdge p.1 p.2) =
      .ok ((envs.find? fun p => pyLower p.2 == "production").map
        fun p => Json.str p.1) := by
  induction envs with
  | nil => rfl
  | cons e rest ih =>
    have hstep : findProduction ((e :: rest).map fun p => mkEdge p.1 p.2) =
        (if pyLower e.2 = "production" then .ok (some (.str e.1))
         else findProduction (rest.map fun p => mkEdge p.1 p.2)) := rfl
    rw [hstep]
    by_cases hc : pyLower e.2 = "production"
    · rw [if_pos hc]
      simp [List.find?_cons, hc]
    · rw [if_neg hc, ih]
      simp [List.find?_cons, hc]

theorem resolveFromData_envBody (initial : Json) (envs : List (String × String)) :
    resolveFromData initial (.obj [("project", .obj [("environments", .obj
      [("edges", .arr (envs.map fun p => mkEdge p.1 p.2))])])]) =
      resolveEdges initial (envs.map fun p => mkEdge p.1 p.2) := rfl

theorem resolveEdges_map (envs : List (String × String)) :
    resolveEdges .null (envs.map fun p => mkEdge p.1 p.2) =
      .ok (amendedEnvSelect envs) := by
  cases envs with
  | nil => rfl
  | cons e rest =>
    unfold resolveEdges amendedEnvSelect
    rw [findProduction_map]
    cases hf : ((e :: rest).find? fun p => pyLower p.2 == "production") with
    | none => rfl
    | some p =>
      by_cases hp : p.1 = ""
      · obtain ⟨p1, p2⟩ := p
        simp only at hp
        subst hp
        rfl
      · simp [Json.truthy, hp, firstEnvId]

def envsC5 : List (String × String) := [("env-a", "staging"), ("", "production")]

def oracleC5 : Oracle := fun _ => .ok (envBody envsC5)

def reqC5 : VariableSetRequest := ⟨"proj-5", "svc-5", none, []⟩

/-- C5 counterexample: the first (and only) production-named environment
carries the empty id, so the claimed rule selects `""`; the code instead
discards the falsy id and resolves the FIRST entry's id `"env-a"`. -/
theorem C5_counterexample :
    (envsC5.find? fun p => pyLower p.2 == "production") = some ("", "production")
    ∧ (resolveEnv oracleC5 reqC5).1 = .ok (.str "env-a")
    ∧ (resolveEnv oracleC5 reqC5).1 ≠ .ok (.str "") := by
  refine ⟨rfl, rfl, ?_⟩
  intro hx
  rw [show (resolveEnv oracleC5 reqC5).1 = .ok (.str "env-a") from rfl] at hx
  injection hx with h2
  injection h2 with h3
  exact absurd h3 (by decide)

/-- C5 (amended): without a supplied environment id, resolution selects the
id of the first environment whose name case-insensitively equals
"production" PROVIDED that id is non-empty; when no name matches or the
matched id is the empty string, it falls back to the id of the first entry
of the returned list; when the list is empty the environment id is left
unresolved (null) and the subsequent upsert calls are still attempted, each
with a null environment id. -/
theorem C5_env_resolution (oracle : Oracle) (req : VariableSetRequest)
    (envs : List (String × String))
    (h0 : req.environment_id = none)
    (h1 : oracle (envCall req.project_id) = .ok (envBody envs)) :
    (resolveEnv oracle req).1 = .ok (amendedEnvSelect envs)
    ∧ (envs = [] →
        (set_variables oracle req).2 = envCall req.project_id ::
          req.vars.map (upsertCall req.project_id req.service_id .null)) := by
  have hq : execute_query oracle (envCall req.project_id) =
      .ok (.obj [("project", .obj [("environments", .obj
        [("edges", .arr (envs.map fun p => mkEdge p.1 p.2))])])]) :=
    (execute_query_ok _ _ _ h1).trans rfl
  have hres : resolveEnv oracle req =
      (match resolveFromData .null (.obj [("project", .obj [("environments", .obj
          [("edges", .arr (envs.map fun p => mkEdge p.1 p.2))])])]) with
       | .error ex => (.error ("Failed to get environment ID: " ++ ex.toMessage),
           [envCall req.project_id])
       | .ok envId => (.ok envId, [envCall req.project_id])) := by
    unfold resolveEnv resolveEnvQuery
    rw [h0]
    simp only [optTruthy]
    rw [if_neg (by simp)]
    rw [hq]
    rfl
  rw [resolveFromData_envBody, resolveEdges_map] at hres
  constructor
  · rw [hres]
  · intro hE
    subst hE
    rw [show amendedEnvSelect [] = Json.null from rfl] at hres
    simp only [set_variables, hres]
    rw [setLoop_eq]
    simp

def oracleC5w : Oracle := fun _ =>
  .ok (envBody [("env-a", "staging"), ("env-b", "Production")])

def reqC5w : VariableSetRequest := ⟨"proj-5w", "svc-5w", none, []⟩

/-- C5 witness: the amended theorem applied to the spec's own test vector —
environments staging/`env-a` then `Production`/`env-b`; the case-insensitive
match selects `env-b` although it is not first. -/
theorem C5_env_resolution_witness :
    (resolveEnv oracleC5w reqC5w).1 =
      .ok (amendedEnvSelect [("env-a", "staging"), ("env-b", "Production")])
    ∧ (([("env-a", "staging"), ("env-b", "Production")] : List (String × String)) = [] →
        (set_variables oracleC5w reqC5w).2 = envCall reqC5w.project_id ::
          reqC5w.vars.map (upsertCall reqC5w.project_id reqC5w.service_id .null)) :=
  C5_env_resolution oracleC5w reqC5w [("env-a", "staging"), ("env-b", "Production")] rfl rfl

/-! ## Claim C6 — failed environment resolution aborts before any upsert -/

/-- C6: when the environment-resolution query is reached (no truthy
environment id on the request) and itself fails (transport or GraphQL
error), the handler returns immediately with `success=false`, an empty
set-list and exactly one error entry, and the trace holds only the
resolution query — no `variableUpsert` mutation is attempted. -/
theorem C6_resolution_failure (oracle : Oracle) (req : VariableSetRequest)
    (e : HTTPError)
    (h0 : optTruthy req.environment_id = false)
    (h1 : execute_query oracle (envCall req.project_id) = .error e) :
    (set_variables oracle req).1.success = false
    ∧ (set_variables oracle req).1.variables_set = []
    ∧ (set_variables oracle req).1.errors.length = 1
    ∧ (set_variables oracle req).2 = [envCall req.project_id] := by
  have hres : resolveEnv oracle req =
      (.error ("Failed to get environment ID: " ++ e.message),
       [envCall req.project_id]) := by
    simp only [resolveEnv, resolveEnvQuery]
    rw [if_neg (by simp [h0]), h1]
  simp [set_variables, hres]

def oracleC6 : Oracle := fun _ => .fault "boom"

def reqC6 : VariableSetRequest := ⟨"proj-6", "svc-6", none, [("KEY", "VAL")]⟩

/-- C6 witness: a transport fault on the resolution query with one
variable in the request; no upsert happens. -/
theorem C6_resolution_failure_witness :
    (set_variables oracleC6 reqC6).1.success = false
    ∧ (set_variables oracleC6 reqC6).1.variables_set = []
    ∧ (set_variables oracleC6 reqC6).1.errors.length = 1
    ∧ (set_variables oracleC6 reqC6).2 = [envCall reqC6.project_id] :=
  C6_resolution_failure oracleC6 reqC6 ⟨500, .str "Railway API error: boom"⟩ rfl rfl

/-! ## Claim C7 — fail-open per-variable loop -/

/-- C7: once the upsert loop is reached (environment resolution produced an
id, or the request supplied one), every variable is attempted regardless of
earlier failures — the trace extends the resolution trace by exactly one
upsert call per variable, in order; `variables_set` is exactly the
succeeded names in processing order; `errors` has one entry per failed
variable; and `success` is true exactly when no variable failed. -/
theorem C7_upsert_loop (oracle : Oracle) (req : VariableSetRequest)
    (envId : Json) (tr : List GqlCall)
    (h : resolveEnv oracle req = (.ok envId, tr)) :
    (set_variables oracle req).1.variables_set =
      (req.vars.filter (upsertOk oracle req.project_id req.service_id envId)).map Prod.fst
    ∧ (set_variables oracle req).1.errors =
      (req.vars.filter fun kv => !upsertOk oracle req.project_id req.service_id envId kv).map
        (upsertErrMsg oracle req.project_id req.service_id envId)
    ∧ ((set_variables oracle req).1.success = true ↔
        (set_variables oracle req).1.errors = [])
    ∧ (set_variables oracle req).2 =
      tr ++ req.vars.map (upsertCall req.project_id req.service_id envId) := by
  have hsv : set_variables oracle req =
      (⟨(setLoop oracle req.project_id req.service_id envId req.vars).2.1.isEmpty,
        (setLoop oracle req.project_id req.service_id envId req.vars).1,
        (setLoop oracle req.project_id req.service_id envId req.vars).2.1⟩,
       tr ++ (setLoop oracle req.project_id req.service_id envId req.vars).2.2) := by
    unfold set_variables
    rw [h]
  rw [hsv, setLoop_eq]
  refine ⟨rfl, rfl, ?_, rfl⟩
  simp [List.isEmpty_iff]

def oracleC7w : Oracle := fun c =>
  match (c.vars.lookup "input").bind (fun i => i.lookup "name") with
  | some (.str "GOOD") => .ok [("data", .obj [("variableUpsert", .bool true)])]
  | _ => .ok [("data", .obj [("variableUpsert", .bool false)])]

def reqC7w : VariableSetRequest :=
  ⟨"proj-7", "svc-7", some "env-7", [("GOOD", "1"), ("BAD", "2")]⟩

/-- C7 witness: a two-variable request with a supplied environment id where
the first upsert succeeds and the second returns a non-`true` result. -/
theorem C7_upsert_loop_witness :
    (set_variables oracleC7w reqC7w).1.variables_set =
      (reqC7w.vars.filter (upsertOk oracleC7w reqC7w.project_id reqC7w.service_id (.str "env-7"))).map Prod.fst
    ∧ (set_variables oracleC7w reqC7w).1.errors =
      (reqC7w.vars.filter fun kv =>
        !upsertOk oracleC7w reqC7w.project_id reqC7w.service_id (.str "env-7") kv).map
          (upsertErrMsg oracleC7w reqC7w.project_id reqC7w.service_id (.str "env-7"))
    ∧ ((set_variables oracleC7w reqC7w).1.success = true ↔
        (set_variables oracleC7w reqC7w).1.errors = [])
    ∧ (set_variables oracleC7w reqC7w).2 =
      [] ++ reqC7w.vars.map (upsertCall reqC7w.project_id reqC7w.service_id (.str "env-7")) :=
  C7_upsert_loop oracleC7w reqC7w (.str "env-7") [] rfl

/-! ## Claim C8 — secret generation -/

theorem tokenHexChars_length (bytes : List Nat) :
    (tokenHexChars bytes).length = 2 * bytes.length := by
  induction bytes with
  | nil => rfl
  | cons b rest ih =>
    simp only [tokenHexChars, List.length_cons, ih]
    omega

theorem hexDigit_hex (n : Nat) : isHexChar (hexDigit n) = true := by
  have hall : ∀ m, m < 16 → isHexChar (hexDigit m) = true := by decide
  have h16 : n % 16 < 16 := Nat.mod_lt _ (by omega)
  have he : hexDigit n = hexDigit (n % 16) := by
    unfold hexDigit
    rw [Nat.mod_eq_of_lt h16]
  rw [he]
  exact hall _ h16

theorem tokenHexChars_hex (bytes : List Nat) :
    ∀ c ∈ tokenHexChars bytes, isHexChar c = true := by
  induction bytes with
  | nil => intro c hc; simp [tokenHexChars] at hc
  | cons b rest ih =>
    intro c hc
    simp only [tokenHexChars, List.mem_cons] at hc
    rcases hc with rfl | rfl | hc
    · exact hexDigit_hex _
    · exact hexDigit_hex _
    · exact ih c hc

/-- C8: for 32 random bytes, the returned secret is a 64-character string
of lowercase hexadecimal characters, the returned `length` field equals the
length of that string, and the handler performs no upstream call. -/
theorem C8_secret (bytes : List Nat) (h : bytes.length = 32) :
    (generate_secret_key bytes).1.secret_key.length = 64
    ∧ (∀ c ∈ (generate_secret_key bytes).1.secret_key.data, isHexChar c = true)
    ∧ (generate_secret_key bytes).1.length =
        (generate_secret_key bytes).1.secret_key.length
    ∧ (generate_secret_key bytes).2 = [] := by
  refine ⟨?_, ?_, rfl, rfl⟩
  · show (tokenHexChars bytes).length = 64
    rw [tokenHexChars_length, h]
  · intro c hc
    exact tokenHexChars_hex bytes c hc

/-- C8 witness: the theorem applied to a concrete 32-byte input. -/
theorem C8_secret_witness :
    (generate_secret_key (List.replicate 32 7)).1.secret_key.length = 64
    ∧ (∀ c ∈ (generate_secret_key (List.replicate 32 7)).1.secret_key.data,
        isHexChar c = true)
    ∧ (generate_secret_key (List.replicate 32 7)).1.length =
        (generate_secret_key (List.replicate 32 7)).1.secret_key.length
    ∧ (generate_secret_key (List.replicate 32 7)).2 = [] :=
  C8_secret (List.replicate 32 7) rfl

/-! ## Claim C9 — empty variable mapping

The loop over an empty mapping performs no upsert and reports
`success=true` with empty lists — but only on the paths that reach the
loop.  When the request also omits the environment id and the resolution
query fails, the handler returns `success=false` with one error while still
performing no upsert, so the unconditional claim fails. -/

theorem resolveEnv_trace (oracle : Oracle) (req : VariableSetRequest) :
    (resolveEnv oracle req).2 = []
    ∨ (resolveEnv oracle req).2 = [envCall req.project_id] := by
  simp only [resolveEnv, resolveEnvQuery]
  split
  · exact Or.inl rfl
  · split
    · exact Or.inr rfl
    · split
      · exact Or.inr rfl
      · exact Or.inr rfl

def oracleC9 : Oracle := fun _ => .fault "boom"

def reqC9 : VariableSetRequest := ⟨"proj-9", "svc-9", none, []⟩

/-- C9 counterexample: an empty variable mapping combined with a failing
environment-resolution query yields `success=false` with one error entry —
not the claimed unconditional `success=true`. -/
theorem C9_counterexample :
    reqC9.vars = []
    ∧ (set_variables oracleC9 reqC9).1.success = false
    ∧ (set_variables oracleC9 reqC9).1.errors.length = 1 :=
  ⟨rfl, rfl, rfl⟩

/-- C9 (amended): a variable-set request with an empty variable mapping
never performs an upsert call (its trace is exactly the resolution trace,
which holds no `variableUpsert` call), and whenever environment resolution
does not fail — in particular whenever an environment id is supplied — the
response is `success=true` with empty `variables_set` and `errors`. -/
theorem C9_empty_map (oracle : Oracle) (req : VariableSetRequest)
    (h : req.vars = []) :
    (set_variables oracle req).2 = (resolveEnv oracle req).2
    ∧ (∀ c ∈ (set_variables oracle req).2, c.query ≠ variableUpsertDoc)
    ∧ (∀ envId tr, resolveEnv oracle req = (.ok envId, tr) →
        (set_variables oracle req).1 = ⟨true, [], []⟩) := by
  have htr := resolveEnv_trace oracle req
  rcases hres : resolveEnv oracle req with ⟨st, tr⟩
  rw [hres] at htr
  cases st with
  | error msg =>
    have hsv : set_variables oracle req = (⟨false, [], [msg]⟩, tr) := by
      unfold set_variables
      rw [hres]
    refine ⟨by rw [hsv], ?_, ?_⟩
    · rw [hsv]
      rcases htr with rfl | rfl
      · intro c hc
        simp at hc
      · intro c hc
        simp only [List.mem_singleton] at hc
        subst hc
        show envQueryDoc ≠ variableUpsertDoc
        decide
    · intro envId tr' heq
      simp at heq
  | ok envId =>
    have hsv : set_variables oracle req = (⟨true, [], []⟩, tr) := by
      unfold set_variables
      rw [hres, h]
      simp [setLoop]
    refine ⟨by rw [hsv], ?_, ?_⟩
    · rw [hsv]
      rcases htr with rfl | rfl
      · intro c hc
        simp at hc
      · intro c hc
        simp only [List.mem_singleton] at hc
        subst hc
        show envQueryDoc ≠ variableUpsertDoc
        decide
    · intro envId' tr' heq
      rw [hsv]

def oracleC9w : Oracle := fun _ => .ok (envBody [("env-a", "production")])

def reqC9w : VariableSetRequest := ⟨"proj-9w", "svc-9w", none, []⟩

/-- C9 witness: the amended theorem applied to an empty mapping with a
successfully resolving environment query. -/
theorem C9_empty_map_witness :
    (set_variables oracleC9w reqC9w).2 = (resolveEnv oracleC9w reqC9w).2
    ∧ (∀ c ∈ (set_variables oracleC9w reqC9w).2, c.query ≠ variableUpsertDoc)
    ∧ (∀ envId tr, resolveEnv oracleC9w reqC9w = (.ok envId, tr) →
        (set_variables oracleC9w reqC9w).1 = ⟨true, [], []⟩) :=
  C9_empty_map oracleC9w reqC9w rfl

/-! ## Claim C10 — optional strings are tested by truthiness

The truthiness tests are real, and the service-creation half holds as full
behavioral equality.  The environment-id half does NOT: both `""` and
`None` trigger the resolution query, but when the environments list comes
back empty neither the production match nor the fallback assigns
`environment_id`, so it retains the request's own value — the upsert
payloads then carry `"environmentId": ""` versus `null`, observably
different outbound calls.  The lemmas below show the two runs agree except
exactly in that both-unresolved residual. -/

theorem resolveEdges_falsy_initial (i1 i2 : Json) (h1 : i1.truthy = false)
    (h2 : i2.truthy = false) (edges : List Json) :
    resolveEdges i1 edges = resolveEdges i2 edges
    ∨ (resolveEdges i1 edges = .ok i1 ∧ resolveEdges i2 edges = .ok i2) := by
  unfold resolveEdges
  cases hf : findProduction edges with
  | error ex => exact Or.inl rfl
  | ok found =>
    cases found with
    | some v => exact Or.inl rfl
    | none =>
      cases edges with
      | nil =>
        refine Or.inr ⟨?_, ?_⟩ <;> simp [h1, h2]
      | cons e rest =>
        refine Or.inl ?_
        simp [h1, h2]

theorem resolveFromData_falsy_initial (i1 i2 : Json) (h1 : i1.truthy = false)
    (h2 : i2.truthy = false) (data : Json) :
    resolveFromData i1 data = resolveFromData i2 data
    ∨ (resolveFromData i1 data = .ok i1 ∧ resolveFromData i2 data = .ok i2) := by
  unfold resolveFromData
  cases hs : ((data.lookup "project").bind (fun p => p.lookup "environments")).bind
      (fun e => e.lookup "edges") with
  | none => exact Or.inl rfl
  | some j =>
    cases j with
    | arr edges => exact resolveEdges_falsy_initial i1 i2 h1 h2 edges
    | obj fs =>
      cases fs with
      | nil => exact Or.inr ⟨rfl, rfl⟩
      | cons f rest => exact Or.inl rfl
    | str s =>
      by_cases hs0 : s = ""
      · refine Or.inr ⟨?_, ?_⟩ <;> simp [hs0]
      · refine Or.inl ?_
        simp [hs0]
    | null => exact Or.inl rfl
    | bool b => exact Or.inl rfl
    | num n => exact Or.inl rfl

theorem resolveEnvQuery_err (oracle : Oracle) (pid : String) (initial : Json)
    (e : HTTPError) (h : execute_query oracle (envCall pid) = .error e) :
    resolveEnvQuery oracle pid initial =
      (.error ("Failed to get environment ID: " ++ e.message), [envCall pid]) := by
  simp only [resolveEnvQuery]
  rw [h]

theorem resolveEnvQuery_dataCase (oracle : Oracle) (pid : String) (initial : Json)
    (data : Json) (h : execute_query oracle (envCall pid) = .ok data) :
    resolveEnvQuery oracle pid initial =
      (match resolveFromData initial data with
       | .error ex => (.error ("Failed to get environment ID: " ++ ex.toMessage),
           [envCall pid])
       | .ok envId => (.ok envId, [envCall pid])) := by
  simp only [resolveEnvQuery]
  rw [h]

theorem resolveEnvQuery_falsy (oracle : Oracle) (pid : String) (i1 i2 : Json)
    (h1 : i1.truthy = false) (h2 : i2.truthy = false) :
    resolveEnvQuery oracle pid i1 = resolveEnvQuery oracle pid i2
    ∨ ((resolveEnvQuery oracle pid i1).1 = .ok i1
       ∧ (resolveEnvQuery oracle pid i2).1 = .ok i2) := by
  cases hq : execute_query oracle (envCall pid) with
  | error e =>
    exact Or.inl ((resolveEnvQuery_err oracle pid i1 e hq).trans
      (resolveEnvQuery_err oracle pid i2 e hq).symm)
  | ok data =>
    have e1 := resolveEnvQuery_dataCase oracle pid i1 data hq
    have e2 := resolveEnvQuery_dataCase oracle pid i2 data hq
    rcases resolveFromData_falsy_initial i1 i2 h1 h2 data with heq | ⟨ha, hb⟩
    · exact Or.inl (by rw [e1, e2, heq])
    · exact Or.inr ⟨by rw [e1, ha], by rw [e2, hb]⟩

def oracleC10x : Oracle := fun c =>
  if c.query = envQueryDoc then .ok (envBody [])
  else
    match (c.vars.lookup "input").bind (fun i => i.lookup "environmentId") with
    | some .null => .ok [("data", .obj [("variableUpsert", .bool true)])]
    | _ => .ok [("errors", .arr [.str "empty environmentId"])]

def vreqC10a : VariableSetRequest := ⟨"p10", "s10", some "", [("K", "V")]⟩

def vreqC10b : VariableSetRequest := ⟨"p10", "s10", none, [("K", "V")]⟩

/-- C10 counterexample: identical requests except `environment_id = ""`
versus absent, against an upstream whose environments list is empty and
which rejects an empty-string `environmentId`.  The `""` run sends the
upsert with `"environmentId": ""` and fails; the absent run sends `null`
and succeeds — the empty-string field does NOT behave exactly as if
absent. -/
theorem C10_counterexample :
    vreqC10a.environment_id = some ""
    ∧ (set_variables oracleC10x vreqC10a).2 =
        [envCall "p10", upsertCall "p10" "s10" (.str "") ("K", "V")]
    ∧ (set_variables oracleC10x vreqC10b).2 =
        [envCall "p10", upsertCall "p10" "s10" .null ("K", "V")]
    ∧ (set_variables oracleC10x vreqC10a).1.success = false
    ∧ (set_variables oracleC10x vreqC10b).1.success = true :=
  ⟨rfl, rfl, rfl, rfl, rfl⟩

/-- C10 (amended): a supplied empty-string environment id triggers the
environment-resolution lookup exactly as an absent one (the same single
environments query is issued in both runs), and the two runs behave
identically EXCEPT when both leave the environment id unresolved (empty or
falsy-shaped environments list), in which case the residual carried into
the upsert payloads is the supplied empty string versus null; a supplied
empty-string service name or root directory is omitted from the
service-creation payload exactly as if the field were absent (full
behavioral equality of the handler). -/
theorem C10_truthiness (oracle : Oracle) (vreq : VariableSetRequest)
    (creq : ServiceCreateRequest) :
    (vreq.environment_id = some "" →
      (resolveEnv oracle vreq).2 = [envCall vreq.project_id]
      ∧ (resolveEnv oracle ⟨vreq.project_id, vreq.service_id, none, vreq.vars⟩).2 =
          [envCall vreq.project_id]
      ∧ (set_variables oracle vreq =
           set_variables oracle ⟨vreq.project_id, vreq.service_id, none, vreq.vars⟩
         ∨ ((resolveEnv oracle vreq).1 = .ok (.str "")
            ∧ (resolveEnv oracle
                ⟨vreq.project_id, vreq.service_id, none, vreq.vars⟩).1 = .ok .null)))
    ∧ (creq.service_name = some "" →
      create_service oracle creq =
        create_service oracle ⟨creq.project_id, creq.repo, none, creq.root_directory⟩)
    ∧ (creq.root_directory = some "" →
      create_service oracle creq =
        create_service oracle ⟨creq.project_id, creq.repo, creq.service_name, none⟩) := by
  refine ⟨fun h => ?_, fun h => ?_, fun h => ?_⟩
  · have ha : resolveEnv oracle vreq =
        resolveEnvQuery oracle vreq.project_id (.str "") := by
      unfold resolveEnv
      rw [h]
      rfl
    have hb : resolveEnv oracle ⟨vreq.project_id, vreq.service_id, none, vreq.vars⟩ =
        resolveEnvQuery oracle vreq.project_id .null := rfl
    have htr : ∀ i : Json, (resolveEnvQuery oracle vreq.project_id i).2 =
        [envCall vreq.project_id] := by
      intro i
      simp only [resolveEnvQuery]
      repeat' split
      all_goals rfl
    refine ⟨by rw [ha, htr], by rw [hb, htr], ?_⟩
    rcases resolveEnvQuery_falsy oracle vreq.project_id (.str "") .null rfl rfl with
      heq | ⟨hu1, hu2⟩
    · refine Or.inl ?_
      unfold set_variables
      rw [ha, heq, hb]
    · exact Or.inr ⟨by rw [ha]; exact hu1, by rw [hb]; exact hu2⟩
  · unfold create_service createCall serviceInput
    rw [h]
    rfl
  · unfold create_service createCall serviceInput
    rw [h]
    rfl

def oracleC10 : Oracle := fun _ => .fault "down"

/-- C10 witness: the three implications discharged at concrete requests
carrying empty-string optional fields (a faulting upstream for the
variable-set pair, where the two runs agree end to end). -/
theorem C10_truthiness_witness :
    ((resolveEnv oracleC10 vreqC10a).2 = [envCall vreqC10a.project_id]
     ∧ (resolveEnv oracleC10
          ⟨vreqC10a.project_id, vreqC10a.service_id, none, vreqC10a.vars⟩).2 =
         [envCall vreqC10a.project_id]
     ∧ (set_variables oracleC10 vreqC10a =
          set_variables oracleC10
            ⟨vreqC10a.project_id, vreqC10a.service_id, none, vreqC10a.vars⟩
        ∨ ((resolveEnv oracleC10 vreqC10a).1 = .ok (.str "")
           ∧ (resolveEnv oracleC10
               ⟨vreqC10a.project_id, vreqC10a.service_id, none,
                vreqC10a.vars⟩).1 = .ok .null)))
    ∧ create_service oracleC10 ⟨"p10", "o/r", some "", some "dir"⟩ =
      create_service oracleC10 ⟨"p10", "o/r", none, some "dir"⟩
    ∧ create_service oracleC10 ⟨"p10", "o/r", some "nm", some ""⟩ =
      create_service oracleC10 ⟨"p10", "o/r", some "nm", none⟩ :=
  ⟨(C10_truthiness oracleC10 vreqC10a ⟨"p10", "o/r", some "", some "dir"⟩).1 rfl,
   (C10_truthiness oracleC10 vreqC10a ⟨"p10", "o/r", some "", some "dir"⟩).2.1 rfl,
   (C10_truthiness oracleC10 vreqC10a ⟨"p10", "o/r", some "nm", some ""⟩).2.2 rfl⟩

end Railway
